import Mathlib

/-!
Shallow embedding of the anymo-be chat service (src/main.go) and proofs of the
frozen claims about it.

The Go service is a Gin HTTP server over a single `chats` table.  The parts
the claims are about are embedded here as pure Lean functions:

* external collaborator calls (the ML risk/sentiment HTTP endpoints, the
  Gemini structured-generation call, the SQL store) are passed in as oracle
  parameters describing the outcome the environment produced for this request;
* the handler logic itself (validation, fallback/merge policy, retry loop,
  response construction) is translated line by line from src/main.go.

Go `int` is embedded as `Int`, `time.Time` as a `Nat` tick, `*T` JSON input
fields as `Option T` (Gin binds an absent field of a well-formed JSON body to
`nil` for pointer fields and to the zero value for plain fields).
-/

/-- The `Chat` struct of src/main.go (also the shape of a `chats` table row). -/
structure Chat where
  id : Int
  startWithDoctor : Bool
  text : String
  riskScore : Int
  memo : String
  createdAt : Nat
deriving Repr, DecidableEq

/-- Retry constants of src/main.go: `var mlAPIMaxRetries = 3`. -/
def mlAPIMaxRetries : Nat := 3

/-- Retry constants of src/main.go: `var mlAPIRetryDelay = 2 * time.Second`,
embedded as a number of seconds. -/
def mlAPIRetryDelaySeconds : Nat := 2

/-- Outcome of one `http.Post` attempt against the ML API: either a transport
error (`err != nil`, no response) or a response with a status code and body. -/
inductive AttemptResult
  | transportError (msg : String)
  | response (status : Nat) (body : String)
deriving Repr, DecidableEq

/-- The break condition of the retry loop:
`err == nil && resp.StatusCode == http.StatusOK`. -/
def attemptOk : AttemptResult → Bool
  | .transportError _ => false
  | .response status _ => status == 200

/-- The shared retry loop body of `analyzeSuicideRisk` and `analyzeSentiment`
(the Go source duplicates this loop verbatim in both functions).
`att i` is the outcome of the HTTP POST on iteration `i`; `fuel` is the number
of loop iterations still allowed after the current one.  Returns the final
`(resp, err)` state together with the number of attempts made and the number
of `time.Sleep(mlAPIRetryDelay)` calls executed.  The loop sleeps only when
`i < mlAPIMaxRetries-1`, i.e. never after the last attempt. -/
def retryGo (att : Nat → AttemptResult) : Nat → Nat → AttemptResult × Nat × Nat
  | i, 0 => (att i, 1, 0)
  | i, fuel + 1 =>
    if attemptOk (att i) then (att i, 1, 0)
    else
      let rest := retryGo att (i + 1) fuel
      (rest.1, rest.2.1 + 1, rest.2.2 + 1)

/-- The full retry loop `for i := 0; i < mlAPIMaxRetries; i++ { ... }`. -/
def runMLRequest (att : Nat → AttemptResult) : AttemptResult × Nat × Nat :=
  retryGo att 0 (mlAPIMaxRetries - 1)

/-- The post-loop error handling and JSON decoding of `analyzeSuicideRisk`.
`decodeScore` embeds `json.NewDecoder(resp.Body).Decode(&riskResponse)`. -/
def finishRisk (decodeScore : String → Option Int) : AttemptResult → Except String Int
  | .transportError e =>
    .error ("failed to make suicide risk API request after "
      ++ toString mlAPIMaxRetries ++ " attempts: " ++ e)
  | .response status body =>
    if status ≠ 200 then
      .error ("suicide risk API returned error, status: " ++ toString status
        ++ ", body: " ++ body)
    else
      match decodeScore body with
      | none => .error "failed to decode suicide risk response"
      | some s => .ok s

/-- `analyzeSuicideRisk` of src/main.go: the retry loop followed by the
post-loop checks.  Besides the Go result it reports the number of
inter-attempt delays the run observed. -/
def analyzeSuicideRisk (decodeScore : String → Option Int)
    (att : Nat → AttemptResult) : Except String Int × Nat :=
  let r := runMLRequest att
  (finishRisk decodeScore r.1, r.2.2)

/-- The post-loop error handling and JSON decoding of `analyzeSentiment`. -/
def finishSentiment (decodeSentiment : String → Option String) :
    AttemptResult → Except String String
  | .transportError e =>
    .error ("failed to make sentiment API request after "
      ++ toString mlAPIMaxRetries ++ " attempts: " ++ e)
  | .response status body =>
    if status ≠ 200 then
      .error ("sentiment API returned error, status: " ++ toString status
        ++ ", body: " ++ body)
    else
      match decodeSentiment body with
      | none => .error "failed to decode sentiment response"
      | some s => .ok s

/-- `analyzeSentiment` of src/main.go, with its delay count. -/
def analyzeSentiment (decodeSentiment : String → Option String)
    (att : Nat → AttemptResult) : Except String String × Nat :=
  let r := runMLRequest att
  (finishSentiment decodeSentiment r.1, r.2.2)

/-- The anonymous input struct bound by `createChat` from a well-formed JSON
body: pointer fields are `Option`, the plain `Text string` field binds an
absent `text` to the empty string. -/
structure CreateInput where
  startWithDoctor : Option Bool
  text : String
  riskScore : Option Int
  memo : Option String
deriving Repr, DecidableEq

/-- The riskScore branch of `createChat` (lines 325-337): on analysis failure
use the caller value if present else 0; on success the machine score wins. -/
def mergeRiskScore (risk : Except String Int) (callerRisk : Option Int) : Int :=
  match risk with
  | .error _ =>
    match callerRisk with
    | some v => v
    | none => 0
  | .ok s => s

/-- The memo branch of `createChat` (lines 340-356): on sentiment failure use
the caller memo if present else the empty string; on success label the memo,
joining a non-empty caller memo after a separator. -/
def mergeMemo (sent : Except String String) (callerMemo : Option String) : String :=
  match sent with
  | .error _ =>
    match callerMemo with
    | some m => m
    | none => ""
  | .ok label =>
    match callerMemo with
    | some m =>
      if m ≠ "" then "Sentiment: " ++ label ++ " | " ++ m
      else "Sentiment: " ++ label
    | none => "Sentiment: " ++ label

/-- Externally visible side effects of one `createChat` request, in order:
the two ML API calls and the INSERT against the `chats` table. -/
inductive Event
  | riskCall
  | sentimentCall
  | insertRow
deriving Repr, DecidableEq

/-- HTTP response of `createChat`: `c.JSON(400, ...)`, `c.JSON(500, ...)` or
`c.JSON(201, chat)`. -/
inductive CreateResponse
  | badRequest (msg : String)
  | serverError (msg : String)
  | created (chat : Chat)
deriving Repr, DecidableEq

/-- The chat record built by `createChat` on the success path: defaults, the
caller text, the merged riskScore and memo, and the id returned by the
INSERT. -/
def createdChat (now : Nat) (risk : Except String Int) (sent : Except String String)
    (newId : Int) (inp : CreateInput) : Chat :=
  { id := newId
    startWithDoctor := inp.startWithDoctor.getD false
    text := inp.text
    riskScore := mergeRiskScore risk inp.riskScore
    memo := mergeMemo sent inp.memo
    createdAt := now }

/-- The `createChat` handler of src/main.go (lines 291-370) on a well-formed
JSON body.  `now` is `time.Now()`; `risk` and `sent` are the outcomes the two
analysis calls would produce for this text; `ins` is the outcome of the
INSERT (assigning the new id on success).  The row written by the INSERT
carries exactly the fields of the returned chat (the id being assigned by the
store). -/
def createChat (now : Nat) (risk : Except String Int) (sent : Except String String)
    (ins : Except String Int) (inp : CreateInput) : CreateResponse × List Event :=
  if inp.text = "" then (.badRequest "text field is required", [])
  else
    match ins with
    | .error e => (.serverError e, [.riskCall, .sentimentCall, .insertRow])
    | .ok newId =>
      (.created (createdChat now risk sent newId inp),
       [.riskCall, .sentimentCall, .insertRow])

/-- The input struct bound by `updateChat` from a well-formed JSON body:
all four fields are pointers, hence `Option`. -/
structure UpdateInput where
  startWithDoctor : Option Bool
  text : Option String
  riskScore : Option Int
  memo : Option String
deriving Repr, DecidableEq

/-- HTTP response of `updateChat`: 404 or `c.JSON(200, existingChat)`. -/
inductive UpdateResult
  | notFound
  | ok (chat : Chat)
deriving Repr, DecidableEq

/-- The initial SELECT of `updateChat`: first row of the `chats` table whose
id matches. -/
def findChat (store : List Chat) (id : Int) : Option Chat :=
  store.find? (fun c => c.id == id)

/-- The four conditional assignments of `updateChat` (lines 405-419): a field
present in the input replaces the existing value, an absent field keeps it.
The id and createdAt fields are never assigned. -/
def applyUpdate (existing : Chat) (inp : UpdateInput) : Chat :=
  { existing with
    startWithDoctor := inp.startWithDoctor.getD existing.startWithDoctor
    text := inp.text.getD existing.text
    riskScore := inp.riskScore.getD existing.riskScore
    memo := inp.memo.getD existing.memo }

/-- Effect of the UPDATE statement on one matching row: it sets
start_with_doctor, text, risk_score and memo from the merged chat `u` and
leaves id and created_at columns of the row untouched. -/
def sqlUpdateRow (u : Chat) (c : Chat) : Chat :=
  { c with
    startWithDoctor := u.startWithDoctor
    text := u.text
    riskScore := u.riskScore
    memo := u.memo }

/-- The `updateChat` handler of src/main.go (lines 372-445) on a well-formed
JSON body, acting on a `chats` table embedded as a list of rows.  Returns the
HTTP result and the table after the UPDATE statement. -/
def updateChat (store : List Chat) (id : Int) (inp : UpdateInput) :
    UpdateResult × List Chat :=
  match findChat store id with
  | none => (.notFound, store)
  | some existing =>
    let updated := applyUpdate existing inp
    let newStore := store.map (fun c => if c.id == id then sqlUpdateRow updated c else c)
    let rowsAffected := (store.filter (fun c => c.id == id)).length
    if rowsAffected = 0 then (.notFound, newStore) else (.ok updated, newStore)

/-- The request-scoped timeout of `callLLMDirect`:
`context.WithTimeout(context.Background(), 15*time.Second)`, in seconds. -/
def llmTimeoutSeconds : Nat := 15

/-- One part of a Gemini candidate content: either a `genai.Text` part or a
part of some other dynamic type. -/
inductive GenPart
  | text (s : String)
  | nonText
deriving Repr, DecidableEq

/-- A Gemini response candidate (its content parts). -/
structure Candidate where
  parts : List GenPart
deriving Repr, DecidableEq

/-- The part-extraction loop of `callLLMDirect` (lines 575-581): take the
first `genai.Text` part, leaving the initial empty string when none exists.
An empty first text part is indistinguishable from a missing one. -/
def extractJSON : List GenPart → String
  | [] => ""
  | GenPart.text s :: _ => s
  | GenPart.nonText :: rest => extractJSON rest

/-- The prompt built by `callLLMDirect` (lines 555-561). -/
def llmPrompt (originalText : String) : String :=
  "Process the conversation below by inserting \x27@@\x27 markers whenever the speaker changes. There should be a \x27@@\x27 marker in every single time the speaker changes. So if person A ends his speech, there should be a \x27@@\x27, then when person B ends his speech, there should be another \x27@@\x27, and when person A speaks and ends his speech again, there should be another \x27@@\x27, etc. Also determine if the conversation starts with a doctor. Return a JSON object with the following fields:\n"
    ++ "  updatedText (string): the conversation with \x27@@\x27 markers inserted,\n"
    ++ "  startWithDoctor (boolean): true if the first utterance is from the doctor, false otherwise.\n"
    ++ "Conversation: " ++ originalText

/-- `callLLMDirect` of src/main.go (lines 522-596).  Oracles: `clientInit` is
the outcome of `genai.NewClient`; `generate prompt` the outcome of
`model.GenerateContent` (a timeout of the 15-second context surfaces here as
an error); `unmarshal` embeds `json.Unmarshal` into the two-field result
struct.  Besides the Go result the embedding reports how many times
GenerateContent was invoked during the call. -/
def callLLMDirect (clientInit : Except String Unit)
    (generate : String → Except String (List Candidate))
    (unmarshal : String → Option (String × Bool))
    (originalText : String) : Except String (String × Bool) × Nat :=
  match clientInit with
  | .error e => (.error ("failed to create Gemini client: " ++ e), 0)
  | .ok _ =>
    match generate (llmPrompt originalText) with
    | .error e => (.error ("LLM API error: " ++ e), 1)
    | .ok cands =>
      match cands with
      | [] => (.error "no candidates returned from LLM", 1)
      | cand :: _ =>
        let jsonResponse := extractJSON cand.parts
        if jsonResponse = "" then
          (.error "failed to retrieve JSON response from LLM", 1)
        else
          match unmarshal jsonResponse with
          | none => (.error "failed to decode JSON response", 1)
          | some tb => (.ok tb, 1)

/-- The input struct bound by `processChat`; all three fields are plain
strings, so an absent field of a well-formed JSON body binds to "". -/
structure ProcessChatRequest where
  createdAt : String
  text : String
  memo : String
deriving Repr, DecidableEq

/-- The response payload struct built by `processChat`. -/
structure ProcessChatResponse where
  createdAt : String
  text : String
  memo : String
  startWithDoctor : Bool
deriving Repr, DecidableEq

/-- HTTP result of `processChat`: `c.JSON(200, resp)` or an error status with
a message body. -/
inductive ProcessResult
  | ok (resp : ProcessChatResponse)
  | err (status : Nat) (msg : String)
deriving Repr, DecidableEq

/-- The body of `processChat` after a successful bind (lines 499-519), with
the LLM call abstracted as `llm`.  The second component records the texts
passed to the LLM call. -/
def processChatWith (llm : String → Except String (String × Bool))
    (req : ProcessChatRequest) : ProcessResult × List String :=
  match llm req.text with
  | .error e => (.err 500 ("LLM processing error: " ++ e), [req.text])
  | .ok tb =>
    (.ok { createdAt := req.createdAt
           text := tb.1
           memo := req.memo
           startWithDoctor := tb.2 },
     [req.text])

/-- Outcome of `c.ShouldBindJSON`: a bound struct for a well-formed body, an
error for a malformed one. -/
inductive BindResult (α : Type)
  | ok (a : α)
  | failed (msg : String)

/-- The full `processChat` handler (lines 486-520), registered for both
POST /processChat and POST /analyze: bind, then process.  A bind failure is
answered with 400 before any LLM call. -/
def processChatHandler (llm : String → Except String (String × Bool))
    (bind : BindResult ProcessChatRequest) : ProcessResult × List String :=
  match bind with
  | .failed e => (.err 400 e, [])
  | .ok req => processChatWith llm req

/-- C1: for every creation request whose risk-analysis call succeeds with
score s, the stored record has riskScore = s, even when the caller supplied
an explicit riskScore override. -/
theorem c1_machine_risk_score_wins (now : Nat) (s : Int) (sent : Except String String)
    (newId : Int) (inp : CreateInput) (h : inp.text ≠ "") :
    ∃ c, createChat now (.ok s) sent (.ok newId) inp =
        (.created c, [.riskCall, .sentimentCall, .insertRow]) ∧ c.riskScore = s := by
  refine ⟨createdChat now (.ok s) sent newId inp, ?_, rfl⟩
  unfold createChat
  rw [if_neg h]

/-- Witness for C1 at the concrete input of the spec example: machine score
88 with caller riskScore = 10 stores 88. -/
theorem c1_machine_risk_score_wins_witness :
    ∃ c, createChat 5 (.ok 88) (.ok "neutral") (.ok 1)
        ⟨some true, "hello", some 10, none⟩ =
        (.created c, [.riskCall, .sentimentCall, .insertRow]) ∧ c.riskScore = 88 :=
  c1_machine_risk_score_wins 5 88 (.ok "neutral") 1
    ⟨some true, "hello", some 10, none⟩ (by decide)

/-- C2: for every creation request whose sentiment call succeeds with label L,
a non-empty caller memo m is stored as "Sentiment: L | m", and a missing or
empty caller memo yields exactly "Sentiment: L". -/
theorem c2_sentiment_memo_format (now : Nat) (risk : Except String Int) (label : String)
    (newId : Int) (inp : CreateInput) (h : inp.text ≠ "") :
    ∃ c, createChat now risk (.ok label) (.ok newId) inp =
        (.created c, [.riskCall, .sentimentCall, .insertRow]) ∧
      (∀ m, inp.memo = some m → m ≠ "" →
        c.memo = "Sentiment: " ++ label ++ " | " ++ m) ∧
      ((inp.memo = none ∨ inp.memo = some "") →
        c.memo = "Sentiment: " ++ label) := by
  refine ⟨createdChat now risk (.ok label) newId inp, ?_, ?_, ?_⟩
  · unfold createChat
    rw [if_neg h]
  · intro m hm hne
    show mergeMemo (.ok label) inp.memo = _
    rw [hm]
    simp [mergeMemo, hne]
  · intro hcase
    show mergeMemo (.ok label) inp.memo = _
    rcases hcase with hn | he
    · rw [hn]
      rfl
    · rw [he]
      simp [mergeMemo]

/-- Witness for C2 at the concrete input of the spec example: label negative
with caller memo "follow-up needed". -/
theorem c2_sentiment_memo_format_witness :
    ∃ c, createChat 5 (.ok 3) (.ok "negative") (.ok 1)
        ⟨none, "hello", none, some "follow-up needed"⟩ =
        (.created c, [.riskCall, .sentimentCall, .insertRow]) ∧
      (∀ m, (some "follow-up needed" : Option String) = some m → m ≠ "" →
        c.memo = "Sentiment: " ++ "negative" ++ " | " ++ m) ∧
      (((some "follow-up needed" : Option String) = none ∨
          (some "follow-up needed" : Option String) = some "") →
        c.memo = "Sentiment: " ++ "negative") :=
  c2_sentiment_memo_format 5 (.ok 3) "negative" 1
    ⟨none, "hello", none, some "follow-up needed"⟩ (by decide)

/-- C3: when both analysis calls fail, the stored record keeps the
caller-supplied riskScore (else 0) and the caller-supplied memo (else ""). -/
theorem c3_both_fail_fallback (now : Nat) (er es : String) (newId : Int)
    (inp : CreateInput) (h : inp.text ≠ "") :
    ∃ c, createChat now (.error er) (.error es) (.ok newId) inp =
        (.created c, [.riskCall, .sentimentCall, .insertRow]) ∧
      c.riskScore = inp.riskScore.getD 0 ∧ c.memo = inp.memo.getD "" := by
  refine ⟨createdChat now (.error er) (.error es) newId inp, ?_, ?_, ?_⟩
  · unfold createChat
    rw [if_neg h]
  · show mergeRiskScore (.error er) inp.riskScore = _
    cases inp.riskScore <;> rfl
  · show mergeMemo (.error es) inp.memo = _
    cases inp.memo <;> rfl

/-- Witness for C3 at the concrete input of the spec example: caller
riskScore 7 and memo "note" survive a double analysis failure. -/
theorem c3_both_fail_fallback_witness :
    ∃ c, createChat 5 (.error "down") (.error "down") (.ok 1)
        ⟨none, "hello", some 7, some "note"⟩ =
        (.created c, [.riskCall, .sentimentCall, .insertRow]) ∧
      c.riskScore = (some (7 : Int)).getD 0 ∧ c.memo = (some "note").getD "" :=
  c3_both_fail_fallback 5 "down" "down" 1 ⟨none, "hello", some 7, some "note"⟩ (by decide)

/-- C5: for a non-empty transcript, whatever the two analysis outcomes are,
the handler still reaches the INSERT and answers 201 with the created record
when the store write succeeds. -/
theorem c5_analysis_failure_not_surfaced (now : Nat) (risk : Except String Int)
    (sent : Except String String) (newId : Int) (inp : CreateInput)
    (h : inp.text ≠ "") :
    ∃ c, createChat now risk sent (.ok newId) inp =
        (.created c, [.riskCall, .sentimentCall, .insertRow]) := by
  refine ⟨createdChat now risk sent newId inp, ?_⟩
  unfold createChat
  rw [if_neg h]

/-- Witness for C5: both analysis calls fail and creation still answers 201. -/
theorem c5_analysis_failure_not_surfaced_witness :
    ∃ c, createChat 5 (.error "risk down") (.error "sentiment down") (.ok 1)
        ⟨none, "hello", none, none⟩ =
        (.created c, [.riskCall, .sentimentCall, .insertRow]) :=
  c5_analysis_failure_not_surfaced 5 (.error "risk down") (.error "sentiment down") 1
    ⟨none, "hello", none, none⟩ (by decide)

/-- C6: an empty (or absent, which binds to empty) transcript is rejected
with 400 and the fixed error message, before any analysis call and before
any store mutation: the event trace is empty. -/
theorem c6_empty_text_rejected (now : Nat) (risk : Except String Int)
    (sent : Except String String) (ins : Except String Int)
    (swd : Option Bool) (rsc : Option Int) (memo : Option String) :
    createChat now risk sent ins ⟨swd, "", rsc, memo⟩ =
      (.badRequest "text field is required", []) := rfl

/-- C4: both analysis-client wrappers attempt the call at most 3 times with a
fixed 2-second delay between consecutive attempts and none after the last,
stop on the first 200 response, retry on any transport error or non-200
status, and a run failing twice then succeeding returns the third attempt
decoded after exactly 2 delays. -/
theorem c4_retry_policy :
    mlAPIMaxRetries = 3 ∧ mlAPIRetryDelaySeconds = 2 ∧
    (∀ att, (runMLRequest att).2.1 ≤ 3 ∧
      (runMLRequest att).2.2 = (runMLRequest att).2.1 - 1) ∧
    (∀ att, attemptOk (att 0) = true → runMLRequest att = (att 0, 1, 0)) ∧
    (∀ att, attemptOk (att 0) = false → attemptOk (att 1) = true →
      runMLRequest att = (att 1, 2, 1)) ∧
    (∀ att, attemptOk (att 0) = false → attemptOk (att 1) = false →
      attemptOk (att 2) = false → runMLRequest att = (att 2, 3, 2)) ∧
    (∀ att b, attemptOk (att 0) = false → attemptOk (att 1) = false →
      att 2 = .response 200 b →
      (∀ decR v, decR b = some v → analyzeSuicideRisk decR att = (.ok v, 2)) ∧
      (∀ decS l, decS b = some l → analyzeSentiment decS att = (.ok l, 2))) := by
  refine ⟨rfl, rfl, ?_, ?_, ?_, ?_, ?_⟩
  · intro att
    by_cases h0 : attemptOk (att 0) <;> by_cases h1 : attemptOk (att 1) <;>
      simp [runMLRequest, mlAPIMaxRetries, retryGo, h0, h1]
  · intro att h0
    simp [runMLRequest, mlAPIMaxRetries, retryGo, h0]
  · intro att h0 h1
    simp [runMLRequest, mlAPIMaxRetries, retryGo, h0, h1]
  · intro att h0 h1 h2
    simp [runMLRequest, mlAPIMaxRetries, retryGo, h0, h1, h2]
  · intro att b h0 h1 h2
    have hok : attemptOk (att 2) = true := by rw [h2]; rfl
    constructor
    · intro decR v hv
      simp [analyzeSuicideRisk, runMLRequest, mlAPIMaxRetries, retryGo,
        h0, h1, h2, hok, finishRisk, hv]
    · intro decS l hl
      simp [analyzeSentiment, runMLRequest, mlAPIMaxRetries, retryGo,
        h0, h1, h2, hok, finishSentiment, hl]

/-- Witness for C4: first two attempts are transport failures, the third is a
200 response whose body decodes, for both wrappers. -/
theorem c4_retry_policy_witness :
    analyzeSuicideRisk
        (fun s => if s = "body3" then some 42 else none)
        (fun i => if i < 2 then .transportError "refused" else .response 200 "body3") =
      (.ok 42, 2) ∧
    analyzeSentiment
        (fun s => if s = "body3" then some "negative" else none)
        (fun i => if i < 2 then .transportError "refused" else .response 200 "body3") =
      (.ok "negative", 2) := by
  have h := c4_retry_policy.2.2.2.2.2.2
    (fun i => if i < 2 then .transportError "refused" else .response 200 "body3")
    "body3" (by decide) (by decide) (by decide)
  exact ⟨h.1 (fun s => if s = "body3" then some 42 else none) 42 (by decide),
         h.2 (fun s => if s = "body3" then some "negative" else none) "negative" (by decide)⟩

/-- C7: the structured-reformatting path makes at most one GenerateContent
attempt under the fixed 15-second timeout, every failure mode yields a typed
error, and processChat surfaces such an error as a 500 response. -/
theorem c7_llm_single_attempt :
    llmTimeoutSeconds = 15 ∧
    (∀ ci gen un t, (callLLMDirect ci gen un t).2 ≤ 1) ∧
    (∀ gen un t e, (callLLMDirect (.error e) gen un t).1 =
      .error ("failed to create Gemini client: " ++ e)) ∧
    (∀ gen un t e, gen (llmPrompt t) = .error e →
      (callLLMDirect (.ok ()) gen un t).1 = .error ("LLM API error: " ++ e)) ∧
    (∀ gen un t, gen (llmPrompt t) = .ok [] →
      (callLLMDirect (.ok ()) gen un t).1 = .error "no candidates returned from LLM") ∧
    (∀ gen un t cand rest, gen (llmPrompt t) = .ok (cand :: rest) →
      extractJSON cand.parts = "" →
      (callLLMDirect (.ok ()) gen un t).1 =
        .error "failed to retrieve JSON response from LLM") ∧
    (∀ gen un t cand rest, gen (llmPrompt t) = .ok (cand :: rest) →
      extractJSON cand.parts ≠ "" → un (extractJSON cand.parts) = none →
      (callLLMDirect (.ok ()) gen un t).1 = .error "failed to decode JSON response") ∧
    (∀ llm req e, llm req.text = .error e →
      processChatWith llm req =
        (.err 500 ("LLM processing error: " ++ e), [req.text])) := by
  refine ⟨rfl, ?_, ?_, ?_, ?_, ?_, ?_, ?_⟩
  · intro ci gen un t
    cases ci with
    | error e => simp [callLLMDirect]
    | ok u =>
      cases hg : gen (llmPrompt t) with
      | error e => simp [callLLMDirect, hg]
      | ok cands =>
        cases cands with
        | nil => simp [callLLMDirect, hg]
        | cons cand rest =>
          by_cases hj : extractJSON cand.parts = ""
          · simp [callLLMDirect, hg, hj]
          · cases hu : un (extractJSON cand.parts) with
            | none => simp [callLLMDirect, hg, hj, hu]
            | some tb => simp [callLLMDirect, hg, hj, hu]
  · intro gen un t e
    simp [callLLMDirect]
  · intro gen un t e hg
    simp [callLLMDirect, hg]
  · intro gen un t hg
    simp [callLLMDirect, hg]
  · intro gen un t cand rest hg hj
    simp [callLLMDirect, hg, hj]
  · intro gen un t cand rest hg hj hu
    simp [callLLMDirect, hg, hj, hu]
  · intro llm req e h
    simp [processChatWith, h]

/-- Witness for C7: a generate-step failure is surfaced as a typed error by a
single attempt, and processChat answers 500 with it. -/
theorem c7_llm_single_attempt_witness :
    (callLLMDirect (.ok ()) (fun _ => .error "deadline exceeded") (fun _ => none) "hi").1 =
      .error ("LLM API error: " ++ "deadline exceeded") ∧
    (callLLMDirect (.ok ()) (fun _ => .error "deadline exceeded") (fun _ => none) "hi").2 ≤ 1 ∧
    processChatWith (fun _ => .error "LLM API error: deadline exceeded")
        ⟨"2024-01-01", "hi", "m"⟩ =
      (.err 500 ("LLM processing error: " ++ "LLM API error: deadline exceeded"), ["hi"]) :=
  ⟨c7_llm_single_attempt.2.2.2.1 (fun _ => .error "deadline exceeded")
      (fun _ => none) "hi" "deadline exceeded" rfl,
   c7_llm_single_attempt.2.1 (.ok ()) (fun _ => .error "deadline exceeded")
      (fun _ => none) "hi",
   c7_llm_single_attempt.2.2.2.2.2.2.2 (fun _ => .error "LLM API error: deadline exceeded")
      ⟨"2024-01-01", "hi", "m"⟩ "LLM API error: deadline exceeded" rfl⟩

/-- C8: an update on an existing record replaces exactly the fields present
in the request body, keeps every absent field, and never changes id or
createdAt (neither in the response record nor in any updated row). -/
theorem c8_partial_update (store : List Chat) (id : Int) (inp : UpdateInput) (e : Chat)
    (h : findChat store id = some e) :
    ∃ u, updateChat store id inp =
        (.ok u, store.map (fun c => if c.id == id then sqlUpdateRow u c else c)) ∧
      u = applyUpdate e inp ∧
      u.startWithDoctor = inp.startWithDoctor.getD e.startWithDoctor ∧
      u.text = inp.text.getD e.text ∧
      u.riskScore = inp.riskScore.getD e.riskScore ∧
      u.memo = inp.memo.getD e.memo ∧
      u.id = e.id ∧ u.createdAt = e.createdAt ∧
      ∀ c : Chat, (sqlUpdateRow u c).id = c.id ∧ (sqlUpdateRow u c).createdAt = c.createdAt := by
  refine ⟨applyUpdate e inp, ?_, rfl, rfl, rfl, rfl, rfl, rfl, rfl, fun c => ⟨rfl, rfl⟩⟩
  have h' : store.find? (fun c => c.id == id) = some e := h
  have hp := List.find?_some h'
  have hmem := List.mem_of_find?_eq_some h'
  have hfe : e ∈ store.filter (fun c => c.id == id) := List.mem_filter.mpr ⟨hmem, hp⟩
  have hne : (store.filter (fun c => c.id == id)).length ≠ 0 := by
    intro h0
    rw [List.length_eq_zero] at h0
    rw [h0] at hfe
    exact List.not_mem_nil e hfe
  simp [updateChat, h, hne]

/-- Witness for C8: a memo-only update of a one-row table leaves the other
fields, the id and createdAt unchanged. -/
theorem c8_partial_update_witness :
    ∃ u, updateChat [⟨1, true, "hi", 5, "old", 100⟩] 1 ⟨none, none, none, some "new"⟩ =
        (.ok u, [(⟨1, true, "hi", 5, "old", 100⟩ : Chat)].map
          (fun c => if c.id == 1 then sqlUpdateRow u c else c)) ∧
      u = applyUpdate ⟨1, true, "hi", 5, "old", 100⟩ ⟨none, none, none, some "new"⟩ ∧
      u.startWithDoctor = (none : Option Bool).getD true ∧
      u.text = (none : Option String).getD "hi" ∧
      u.riskScore = (none : Option Int).getD 5 ∧
      u.memo = (some "new").getD "old" ∧
      u.id = 1 ∧ u.createdAt = 100 ∧
      ∀ c : Chat, (sqlUpdateRow u c).id = c.id ∧ (sqlUpdateRow u c).createdAt = c.createdAt :=
  c8_partial_update [⟨1, true, "hi", 5, "old", 100⟩] 1 ⟨none, none, none, some "new"⟩
    ⟨1, true, "hi", 5, "old", 100⟩ (by decide)

/-- C9: on LLM success, processChat echoes createdAt and memo from the
request unchanged and takes text and startWithDoctor from the LLM result. -/
theorem c9_process_chat_preserves_fields (llm : String → Except String (String × Bool))
    (req : ProcessChatRequest) (t : String) (s : Bool)
    (h : llm req.text = .ok (t, s)) :
    processChatWith llm req =
      (.ok { createdAt := req.createdAt, text := t, memo := req.memo, startWithDoctor := s },
       [req.text]) := by
  simp [processChatWith, h]

/-- Witness for C9 at a concrete request and LLM result. -/
theorem c9_process_chat_preserves_fields_witness :
    processChatWith (fun _ => .ok ("a @@ b", true)) ⟨"2024-01-01", "conv", "m"⟩ =
      (.ok { createdAt := "2024-01-01", text := "a @@ b", memo := "m", startWithDoctor := true },
       ["conv"]) :=
  c9_process_chat_preserves_fields (fun _ => .ok ("a @@ b", true))
    ⟨"2024-01-01", "conv", "m"⟩ "a @@ b" true rfl

/-- C10: a well-formed processChat request with an empty (or absent, which
binds to empty) text is not rejected with 400: the handler always forwards
the empty text to the LLM call. -/
theorem c10_no_transcript_validation (llm : String → Except String (String × Bool))
    (ca memo : String) :
    processChatHandler llm (.ok ⟨ca, "", memo⟩) = processChatWith llm ⟨ca, "", memo⟩ ∧
    (processChatHandler llm (.ok ⟨ca, "", memo⟩)).2 = [""] ∧
    ∀ m, (processChatHandler llm (.ok ⟨ca, "", memo⟩)).1 ≠ .err 400 m := by
  refine ⟨rfl, ?_, ?_⟩
  · cases h : llm "" <;> simp [processChatHandler, processChatWith, h]
  · intro m
    cases h : llm "" <;> simp [processChatHandler, processChatWith, h]
